import Mathlib

/-!
A shallow embedding of `src/new-network-namespace.c`.

Results of fallible OS calls are supplied by an `Env` oracle: for each
call, `none` means the call succeeds and `some e` means it fails with
errno `e`.  Each translated function returns the kernel requests and
pseudo-file write attempts it issues (in program order), the text it
prints to standard error, and how it leaves the process.  `exit(-1)` is
observed as exit status 255 (exit reports the low 8 bits), so the
embedding records it as 255.
-/

namespace NewNetworkNamespace

/-- The errno value ENOENT (No such file or directory). -/
def ENOENT : Nat := 2

/-- Model of strerror: the text perror appends after the colon. -/
def strerror (e : Nat) : String :=
  if e = 1 then "Operation not permitted"
  else if e = 2 then "No such file or directory"
  else if e = 13 then "Permission denied"
  else "Unknown error " ++ toString e

/-- Model of perror(s) with errno e: the line printed to standard error. -/
def perrorMsg (s : String) (e : Nat) : String := s ++ ": " ++ strerror e

/-- Kernel requests and pseudo-file write attempts, in program order.
`unshareCall` carries which of CLONE_NEWNS, CLONE_NEWUSER, CLONE_NEWNET
were requested in that single unshare call. -/
inductive Event where
  | unshareCall (newns newuser newnet : Bool)
  | fileWrite (path : String) (content : String)
  | setresuidCall
  | setresgidCall
  | execCall (path : String)
deriving DecidableEq, Repr

/-- How a whole run of the program ends: `exited c` = the process called
exit with observed status `c`; `execed p` = the process image was replaced
by executing `p`; `returned r` = main returned normally with value `r`
(this never happens; the constructor exists so that unreachability of the
trailing `return 0` is a statement, not a typing accident). -/
inductive Outcome where
  | exited (code : Nat)
  | execed (path : String)
  | returned (r : Int)
deriving DecidableEq, Repr

/-- Oracle for the fallible calls the program makes.  For the checked
calls, `none` = success, `some e` = failure with errno `e`.  `execRet` is
the value execvp returns when it returns at all (`none` = the exec
succeeds and never returns); `execErrno` is errno after a failed exec. -/
structure Env where
  uid : Nat
  gid : Nat
  unshareW : Option Nat
  setgroupsW : Option Nat
  uidMapW : Option Nat
  gidMapW : Option Nat
  setresuidW : Option Nat
  setresgidW : Option Nat
  execRet : Option Int
  execErrno : Nat
deriving DecidableEq, Repr

/-- OS contract for execvp: it returns only on failure, and then it
returns -1 (POSIX).  Runs of the program live under this contract. -/
def Env.wf (env : Env) : Prop := env.execRet = none ∨ env.execRet = some (-1)

instance (env : Env) : Decidable env.wf := by
  unfold Env.wf
  infer_instance

/-- Observable result of a program fragment that may call exit: the events
it issued, the standard-error lines it printed, and `some c` when it exits
with status `c` (`none` = it returns to its caller). -/
structure Phase where
  events : List Event
  out : List String
  exitc : Option Nat
deriving DecidableEq, Repr

/-- Result of a whole run. -/
structure RunResult where
  events : List Event
  output : List String
  outcome : Outcome
deriving DecidableEq, Repr

/-- WriteFile(filename, fmt, ...): fopen / vfprintf / fclose, collapsed to
the oracle outcome for that write: a non-negative value (0) on success,
-1 on failure. -/
def WriteFile (w : Option Nat) : Int :=
  match w with
  | none => 0
  | some _ => -1

/-- Return value of a checked syscall (unshare, setresuid, setresgid):
0 on success, -1 on failure. -/
def cRet (w : Option Nat) : Int :=
  match w with
  | none => 0
  | some _ => -1

/-- errno right after a fallible call.  It is only consulted on failure
paths, where it equals the failing call's errno; the default 0 is never
reached by the control flow. -/
def errnoVal (w : Option Nat) : Nat := w.getD 0

/-- SetupUserNamespace(uid, gid): write "deny" to /proc/self/setgroups
(failure tolerated only when errno == ENOENT), then the one-line UID and
GID maps via CHECK_CALL, then setresuid/setresgid via CHECK_CALL.
CHECK_CALL prints perror of the stringified call and exits with status 1;
the setgroups failure path exits with status -1 (observed 255). -/
def SetupUserNamespace (env : Env) : Phase :=
  let ev1 := Event.fileWrite "/proc/self/setgroups" "deny"
  let r := WriteFile env.setgroupsW
  if r < 0 ∧ errnoVal env.setgroupsW ≠ ENOENT then
    { events := [ev1]
      out := [perrorMsg "WriteFile(\"/proc/self/setgroups\", \"deny\")" (errnoVal env.setgroupsW)]
      exitc := some 255 }
  else
    let ev2 := Event.fileWrite "/proc/self/uid_map" ("0 " ++ toString env.uid ++ " 1\n")
    if WriteFile env.uidMapW = -1 then
      { events := [ev1, ev2]
        out := [perrorMsg "WriteFile(\"/proc/self/uid_map\", \"0 %d 1\\n\", uid)" (errnoVal env.uidMapW)]
        exitc := some 1 }
    else
      let ev3 := Event.fileWrite "/proc/self/gid_map" ("0 " ++ toString env.gid ++ " 1\n")
      if WriteFile env.gidMapW = -1 then
        { events := [ev1, ev2, ev3]
          out := [perrorMsg "WriteFile(\"/proc/self/gid_map\", \"0 %d 1\\n\", gid)" (errnoVal env.gidMapW)]
          exitc := some 1 }
      else
        if cRet env.setresuidW = -1 then
          { events := [ev1, ev2, ev3, Event.setresuidCall]
            out := [perrorMsg "setresuid(0, 0, 0)" (errnoVal env.setresuidW)]
            exitc := some 1 }
        else
          if cRet env.setresgidW = -1 then
            { events := [ev1, ev2, ev3, Event.setresuidCall, Event.setresgidCall]
              out := [perrorMsg "setresgid(0, 0, 0)" (errnoVal env.setresgidW)]
              exitc := some 1 }
          else
            { events := [ev1, ev2, ev3, Event.setresuidCall, Event.setresgidCall]
              out := []
              exitc := none }

/-- The PRINT_DEBUG line after the checked execvp call; printed only on
the path that requires execvp to return a value other than -1. -/
def execFailedDebugMsg : String := "sandbox.c: Exec failed near new-network-namespace.c:103\n"

/-- SpawnCommand(argv): debug-print the arguments, then
CHECK_CALL(execvp(argv[0], argv)).  If execvp succeeds it never returns;
if it returns -1 the CHECK_CALL prints perror and exits 1; the two
statements after the CHECK_CALL run only if execvp returns a value other
than -1. -/
def SpawnCommand (env : Env) (debug : Bool) (args : List String) : RunResult :=
  let dbgOut := if debug then args.map (fun a => "sandbox.c: arg: " ++ a ++ "\n") else []
  let ev := Event.execCall (args.headD "")
  match env.execRet with
  | none =>
    { events := [ev], output := dbgOut, outcome := Outcome.execed (args.headD "") }
  | some r =>
    if r = -1 then
      { events := [ev]
        output := dbgOut ++ [perrorMsg "execvp(argv[0], argv)" env.execErrno]
        outcome := Outcome.exited 1 }
    else
      { events := [ev]
        output := dbgOut ++ (if debug then [execFailedDebugMsg] else [])
        outcome := Outcome.exited 1 }

/-- The fixed lines Usage prints after the formatted error message. -/
def usageText (argv : List String) : List String :=
  ["\nCreate a new empty network namespace(plus user namespace) for testing\nUsage: "
     ++ argv.headD "" ++ " [-C|--] command arg1\n",
   "  provided:"]
  ++ argv.map (fun a => " " ++ a)
  ++ ["\nMandatory arguments:\n  [--] command to run inside sandbox, followed by arguments\n\nOptional arguments:\n  -D if set, debug info will be printed\n"]

/-- Usage(argc, argv, fmt, ...): print the formatted message, the usage
synopsis with argv[0], each supplied argument, and the argument help, then
exit(1). -/
def Usage (argv : List String) (msg : String) : Phase :=
  { events := [], out := msg :: usageText argv, exitc := some 1 }

/-- Result of the getopt loop: either it finished (final optind, debug
flag) or it hit an option character other than D, where Usage is called
with optopt = that character and the current optind. -/
inductive ScanResult where
  | ok (optind : Nat) (debug : Bool)
  | badFlag (c : Char) (shown : Nat) (debug : Bool)
deriving DecidableEq, Repr

/-- One getopt cluster ("-DD...") after the dash: each D sets the debug
flag; any other character stops with that character and whether it was the
last character of the cluster (glibc increments optind past a cluster once
its last character is consumed). -/
def scanCluster (cs : List Char) (debug : Bool) : Except (Char × Bool × Bool) Bool :=
  match cs with
  | [] => Except.ok debug
  | c :: rest =>
    if c = 'D' then scanCluster rest true
    else Except.error (c, rest.isEmpty, debug)

/-- The getopt(argc, argv, "+:D") loop over the argument elements after
argv[0], tracking optind (starting at 1).  The leading + stops at the
first non-option element; a lone "-" is a non-option; "--" ends option
scanning and is consumed. -/
def getoptScan : List String → Nat → Bool → ScanResult
  | [], k, d => ScanResult.ok k d
  | a :: rest, k, d =>
    match a.toList with
    | ['-'] => ScanResult.ok k d
    | ['-', '-'] => ScanResult.ok (k + 1) d
    | '-' :: c :: cs =>
      match scanCluster (c :: cs) d with
      | Except.ok d2 => getoptScan rest (k + 1) d2
      | Except.error (bad, lastc, d2) =>
        ScanResult.badFlag bad (if lastc then k + 1 else k) d2
    | _ => ScanResult.ok k d

/-- ParseCommandLine(argc, argv, opt): run the getopt loop (the ':' case
of its switch is unreachable since no flag takes an argument), then set
opt->args = argv + optind and require at least one remaining token.
On a usage error it exits via Usage (the Phase); otherwise it returns the
debug flag and the argument suffix argv + optind. -/
def ParseCommandLine (argv : List String) : Except Phase (Bool × List String) :=
  match getoptScan (argv.drop 1) 1 false with
  | ScanResult.badFlag c shown _ =>
    Except.error (Usage argv ("Unrecognized argument: -" ++ String.singleton c
      ++ " (" ++ toString shown ++ ")"))
  | ScanResult.ok optind d =>
    if argv.length ≤ optind then Except.error (Usage argv "No command specified")
    else Except.ok (d, argv.drop optind)

/-- main: ParseCommandLine, getuid/getgid, CHECK_CALL(unshare(CLONE_NEWNS
| CLONE_NEWUSER | CLONE_NEWNET)), SetupUserNamespace(uid, gid),
SpawnCommand(opt.args).  SpawnCommand never returns, so the trailing
`return 0` (Outcome.returned 0) corresponds to no branch. -/
def main (env : Env) (argv : List String) : RunResult :=
  match ParseCommandLine argv with
  | Except.error ph =>
    { events := ph.events, output := ph.out, outcome := Outcome.exited (ph.exitc.getD 0) }
  | Except.ok (debug, args) =>
    let evU := Event.unshareCall true true true
    if cRet env.unshareW = -1 then
      { events := [evU]
        output := [perrorMsg "unshare(CLONE_NEWNS | CLONE_NEWUSER | CLONE_NEWNET)" (errnoVal env.unshareW)]
        outcome := Outcome.exited 1 }
    else
      let su := SetupUserNamespace env
      match su.exitc with
      | some c =>
        { events := evU :: su.events, output := su.out, outcome := Outcome.exited c }
      | none =>
        let sp := SpawnCommand env debug args
        { events := evU :: su.events ++ sp.events
          output := su.out ++ sp.output
          outcome := sp.outcome }

/-- Bool test for fileWrite events (pseudo-file write attempts). -/
def isFileWrite : Event → Bool
  | Event.fileWrite _ _ => true
  | _ => false

/-- Bool test for unshare events. -/
def isUnshare : Event → Bool
  | Event.unshareCall _ _ _ => true
  | _ => false

/-- Substring test on strings. -/
def strContains (needle hay : String) : Bool := decide (needle.toList <:+: hay.toList)

instance {ε α : Type} [DecidableEq ε] [DecidableEq α] : DecidableEq (Except ε α) := fun x y =>
  match x, y with
  | Except.ok a, Except.ok b =>
    if h : a = b then Decidable.isTrue (by rw [h])
    else Decidable.isFalse (by intro he; injection he; contradiction)
  | Except.error a, Except.error b =>
    if h : a = b then Decidable.isTrue (by rw [h])
    else Decidable.isFalse (by intro he; injection he; contradiction)
  | Except.ok _, Except.error _ => Decidable.isFalse (by intro he; injection he)
  | Except.error _, Except.ok _ => Decidable.isFalse (by intro he; injection he)

/-- Environment in which every OS call succeeds. -/
def envOK : Env :=
  { uid := 1000, gid := 1000, unshareW := none, setgroupsW := none, uidMapW := none
    gidMapW := none, setresuidW := none, setresgidW := none, execRet := none, execErrno := 0 }

/-- An ordinary invocation: ./tool ls. -/
def argvLs : List String := ["tool", "ls"]

/-- Environment in which the exec fails (binary not found). -/
def envExecFail : Env := { envOK with execRet := some (-1), execErrno := ENOENT }

/-- Environment in which unshare fails (EPERM). -/
def envUnshareFail : Env := { envOK with unshareW := some 1 }

lemma parse_error_shape (argv : List String) (ph : Phase)
    (h : ParseCommandLine argv = Except.error ph) :
    ph.events = [] ∧ ph.exitc = some 1 ∧ ph.out ≠ [] := by
  unfold ParseCommandLine at h
  rcases hs : getoptScan (argv.drop 1) 1 false with ⟨n, d⟩ | ⟨c, s, d⟩ <;>
    simp only [hs] at h
  · by_cases hl : argv.length ≤ n
    · rw [if_pos hl] at h
      injection h with h
      subst h
      simp [Usage, usageText]
    · rw [if_neg hl] at h
      exact absurd h (by simp)
  · injection h with h
    subst h
    simp [Usage, usageText]

lemma spawn_events (env : Env) (debug : Bool) (args : List String) :
    (SpawnCommand env debug args).events = [Event.execCall (args.headD "")] := by
  cases h : env.execRet <;> simp [SpawnCommand, h]
  split <;> rfl

lemma sun_success (env : Env)
    (hsg : env.setgroupsW = none ∨ env.setgroupsW = some ENOENT)
    (h1 : env.uidMapW = none) (h2 : env.gidMapW = none)
    (h3 : env.setresuidW = none) (h4 : env.setresgidW = none) :
    SetupUserNamespace env =
      { events := [Event.fileWrite "/proc/self/setgroups" "deny",
                   Event.fileWrite "/proc/self/uid_map" ("0 " ++ toString env.uid ++ " 1\n"),
                   Event.fileWrite "/proc/self/gid_map" ("0 " ++ toString env.gid ++ " 1\n"),
                   Event.setresuidCall, Event.setresgidCall]
        out := []
        exitc := none } := by
  rcases hsg with hsg | hsg <;>
    simp [SetupUserNamespace, hsg, h1, h2, h3, h4, WriteFile, errnoVal, ENOENT, cRet]

lemma sun_cases (env : Env) :
    ((SetupUserNamespace env).exitc = none ∧ (SetupUserNamespace env).out = []) ∨
    ((SetupUserNamespace env).exitc = some 255 ∧ (SetupUserNamespace env).out ≠ [] ∧
      ∃ e, env.setgroupsW = some e ∧ e ≠ ENOENT) ∨
    ((SetupUserNamespace env).exitc = some 1 ∧ (SetupUserNamespace env).out ≠ []) := by
  rcases hsg : env.setgroupsW with _ | e
  · rcases hu : env.uidMapW with _ | eu <;>
    rcases hg : env.gidMapW with _ | eg <;>
    rcases hru : env.setresuidW with _ | eru <;>
    rcases hrg : env.setresgidW with _ | erg <;>
      simp [SetupUserNamespace, hsg, hu, hg, hru, hrg, WriteFile, errnoVal, ENOENT, cRet]
  · by_cases he : e = 2 <;>
    rcases hu : env.uidMapW with _ | eu <;>
    rcases hg : env.gidMapW with _ | eg <;>
    rcases hru : env.setresuidW with _ | eru <;>
    rcases hrg : env.setresgidW with _ | erg <;>
      simp [SetupUserNamespace, hsg, hu, hg, hru, hrg, WriteFile, errnoVal, ENOENT, cRet, he]

lemma sun_events_enum (env : Env) :
    ((SetupUserNamespace env).events = [Event.fileWrite "/proc/self/setgroups" "deny"]) ∨
    ((SetupUserNamespace env).events
      = [Event.fileWrite "/proc/self/setgroups" "deny",
         Event.fileWrite "/proc/self/uid_map" ("0 " ++ toString env.uid ++ " 1\n")]) ∨
    ((SetupUserNamespace env).events
      = [Event.fileWrite "/proc/self/setgroups" "deny",
         Event.fileWrite "/proc/self/uid_map" ("0 " ++ toString env.uid ++ " 1\n"),
         Event.fileWrite "/proc/self/gid_map" ("0 " ++ toString env.gid ++ " 1\n")]) ∨
    (env.uidMapW = none ∧ env.gidMapW = none ∧
      (SetupUserNamespace env).events
        = [Event.fileWrite "/proc/self/setgroups" "deny",
           Event.fileWrite "/proc/self/uid_map" ("0 " ++ toString env.uid ++ " 1\n"),
           Event.fileWrite "/proc/self/gid_map" ("0 " ++ toString env.gid ++ " 1\n"),
           Event.setresuidCall]) ∨
    (env.uidMapW = none ∧ env.gidMapW = none ∧ env.setresuidW = none ∧
      (SetupUserNamespace env).events
        = [Event.fileWrite "/proc/self/setgroups" "deny",
           Event.fileWrite "/proc/self/uid_map" ("0 " ++ toString env.uid ++ " 1\n"),
           Event.fileWrite "/proc/self/gid_map" ("0 " ++ toString env.gid ++ " 1\n"),
           Event.setresuidCall, Event.setresgidCall]) := by
  rcases hsg : env.setgroupsW with _ | e
  · rcases hu : env.uidMapW with _ | eu <;>
    rcases hg : env.gidMapW with _ | eg <;>
    rcases hru : env.setresuidW with _ | eru <;>
    rcases hrg : env.setresgidW with _ | erg <;>
      simp [SetupUserNamespace, hsg, hu, hg, hru, hrg, WriteFile, errnoVal, ENOENT, cRet]
  · by_cases he : e = 2 <;>
    rcases hu : env.uidMapW with _ | eu <;>
    rcases hg : env.gidMapW with _ | eg <;>
    rcases hru : env.setresuidW with _ | eru <;>
    rcases hrg : env.setresgidW with _ | erg <;>
      simp [SetupUserNamespace, hsg, hu, hg, hru, hrg, WriteFile, errnoVal, ENOENT, cRet, he]

lemma sun_setresuid_mem (env : Env)
    (h : Event.setresuidCall ∈ (SetupUserNamespace env).events) :
    env.uidMapW = none ∧ env.gidMapW = none := by
  rcases sun_events_enum env with he | he | he | ⟨h1, h2, he⟩ | ⟨h1, h2, h3, he⟩ <;>
    rw [he] at h <;> simp at h
  · exact ⟨h1, h2⟩
  · exact ⟨h1, h2⟩

lemma sun_setresgid_mem (env : Env)
    (h : Event.setresgidCall ∈ (SetupUserNamespace env).events) :
    env.uidMapW = none ∧ env.gidMapW = none ∧ env.setresuidW = none := by
  rcases sun_events_enum env with he | he | he | ⟨h1, h2, he⟩ | ⟨h1, h2, h3, he⟩ <;>
    rw [he] at h <;> simp at h
  exact ⟨h1, h2, h3⟩

lemma sun_no_unshare (env : Env) :
    (∀ a b c, Event.unshareCall a b c ∉ (SetupUserNamespace env).events) ∧
    (SetupUserNamespace env).events.countP isUnshare = 0 := by
  rcases sun_events_enum env with he | he | he | ⟨h1, h2, he⟩ | ⟨h1, h2, h3, he⟩ <;>
    rw [he] <;> simp [isUnshare, List.countP_cons]

lemma main_events_cases (env : Env) (argv : List String) :
    (main env argv).events = [] ∨
    ((∃ e, env.unshareW = some e) ∧
      (main env argv).events = [Event.unshareCall true true true]) ∨
    (env.unshareW = none ∧
      ((main env argv).events
          = Event.unshareCall true true true :: (SetupUserNamespace env).events ∨
       ∃ s, (main env argv).events
          = Event.unshareCall true true true :: (SetupUserNamespace env).events
              ++ [Event.execCall s])) := by
  rcases hp : ParseCommandLine argv with ph | ⟨d, args⟩
  · left
    simp [main, hp, (parse_error_shape argv ph hp).1]
  · cases hu : env.unshareW with
    | some e =>
      right; left
      exact ⟨⟨e, rfl⟩, by simp [main, hp, cRet, hu]⟩
    | none =>
      right; right
      refine ⟨rfl, ?_⟩
      cases hse : (SetupUserNamespace env).exitc with
      | some c => left; simp [main, hp, cRet, hu, hse]
      | none =>
        right
        exact ⟨args.headD "", by simp [main, hp, cRet, hu, hse, spawn_events]⟩

/-- Sanity: the all-success run issues the unshare, the three pseudo-file
writes, the two credential calls and the exec, in program order, then the
process image is replaced. -/
theorem sanity_success_trace : main envOK argvLs =
    { events := [Event.unshareCall true true true,
                 Event.fileWrite "/proc/self/setgroups" "deny",
                 Event.fileWrite "/proc/self/uid_map" "0 1000 1\n",
                 Event.fileWrite "/proc/self/gid_map" "0 1000 1\n",
                 Event.setresuidCall, Event.setresgidCall,
                 Event.execCall "ls"]
      output := []
      outcome := Outcome.execed "ls" } := by decide

/-- Sanity: an unrecognized flag is a usage error reported through Usage
with getopt's optopt and optind. -/
theorem sanity_bad_flag : ParseCommandLine ["tool", "-Z"] =
    Except.error (Usage ["tool", "-Z"] "Unrecognized argument: -Z (2)") := by decide

/-- Claim C10: whenever ParseCommandLine returns (rather than exiting via
Usage), the resulting args field is a suffix of argv containing at least
one token, so the later argv[0] dereference by SpawnCommand and its use as
the exec target are well-defined. -/
theorem claim_c10_args_nonempty_suffix (argv : List String) (d : Bool) (args : List String)
    (h : ParseCommandLine argv = Except.ok (d, args)) :
    args ≠ [] ∧ List.IsSuffix args argv := by
  unfold ParseCommandLine at h
  rcases hs : getoptScan (argv.drop 1) 1 false with ⟨n, d2⟩ | ⟨c, s, d2⟩ <;>
    simp only [hs] at h
  · by_cases hl : argv.length ≤ n
    · rw [if_pos hl] at h
      exact absurd h (by simp)
    · rw [if_neg hl] at h
      injection h with h
      injection h with h1 h2
      subst h2
      refine ⟨fun hnil => hl (List.drop_eq_nil_iff.mp hnil), List.drop_suffix n argv⟩
  · exact absurd h (by simp)

/-- Claim C10 witness: a concrete invocation on which ParseCommandLine
returns, with a nonempty args suffix. -/
theorem claim_c10_witness :
    (["ls"] : List String) ≠ [] ∧ List.IsSuffix ["ls"] ["tool", "ls"] :=
  claim_c10_args_nonempty_suffix ["tool", "ls"] false ["ls"] (by decide)

/-- Claim C5: for every invocation whose argument list lacks a command
token after the options (the getopt loop finishes with optind at or past
argc), the tool exits with status 1 and prints a usage message containing
"No command specified" and each originally supplied argument, and issues
no namespace-creation, mapping-write, credential or exec syscall (the
event trace is empty). -/
theorem claim_c5_no_command_usage (env : Env) (argv : List String) (n : Nat) (d : Bool)
    (h1 : getoptScan (argv.drop 1) 1 false = ScanResult.ok n d)
    (h2 : argv.length ≤ n) :
    (main env argv).outcome = Outcome.exited 1 ∧
    (main env argv).events = [] ∧
    "No command specified" ∈ (main env argv).output ∧
    ∀ a ∈ argv, (" " ++ a) ∈ (main env argv).output := by
  have hp : ParseCommandLine argv = Except.error (Usage argv "No command specified") := by
    unfold ParseCommandLine
    rw [h1]
    simp only [if_pos h2]
  refine ⟨by simp [main, hp, Usage], by simp [main, hp, Usage], by simp [main, hp, Usage], ?_⟩
  intro a ha
  simp only [main, hp, Usage, usageText]
  apply List.mem_cons_of_mem
  apply List.mem_append_left
  apply List.mem_append_right
  exact List.mem_map_of_mem _ ha

/-- Claim C5 witness: running with -D and no command exits 1 with the
usage text and an empty event trace. -/
theorem claim_c5_witness :
    (main envOK ["./tool", "-D"]).outcome = Outcome.exited 1 ∧
    (main envOK ["./tool", "-D"]).events = [] ∧
    "No command specified" ∈ (main envOK ["./tool", "-D"]).output :=
  ⟨(claim_c5_no_command_usage envOK ["./tool", "-D"] 2 true (by decide) (by decide)).1,
   (claim_c5_no_command_usage envOK ["./tool", "-D"] 2 true (by decide) (by decide)).2.1,
   (claim_c5_no_command_usage envOK ["./tool", "-D"] 2 true (by decide) (by decide)).2.2.1⟩

/-- Claim C8: two runs that differ only in whether the setgroups control
file is absent (its write fails with ENOENT) or present and writable (its
write succeeds) produce identical output and identical exit outcome. -/
theorem claim_c8_tolerated_absence_equiv (env : Env) (argv : List String) :
    (main { env with setgroupsW := some ENOENT } argv).output
      = (main { env with setgroupsW := none } argv).output ∧
    (main { env with setgroupsW := some ENOENT } argv).outcome
      = (main { env with setgroupsW := none } argv).outcome := by
  have hmain : main { env with setgroupsW := some ENOENT } argv
      = main { env with setgroupsW := none } argv := by
    have hsu : SetupUserNamespace { env with setgroupsW := some ENOENT }
        = SetupUserNamespace { env with setgroupsW := none } := by
      simp [SetupUserNamespace, WriteFile, errnoVal, ENOENT]
    have hspawn : ∀ dbg args, SpawnCommand { env with setgroupsW := some ENOENT } dbg args
        = SpawnCommand { env with setgroupsW := none } dbg args := fun _ _ => rfl
    unfold main
    rcases hp : ParseCommandLine argv with ph | ⟨d, args⟩
    · rfl
    · simp only [hsu, hspawn]
  rw [hmain]
  exact ⟨rfl, rfl⟩

/-- Claim C4: in the Identity Remapper, an ENOENT failure writing the
setgroups control file is treated as success (the run continues exactly as
if the write had succeeded); any other failure of that write exits with
status 255 after printing an error; and a failure of the UID-map write,
the GID-map write, setresuid or setresgid exits with status 1 after
printing an error.  The final conjunct propagates: when SetupUserNamespace
exits, the whole process terminates with that (non-zero) status. -/
theorem claim_c4_identity_remapper_fatality (env : Env) :
    ((env.setgroupsW = some ENOENT →
      SetupUserNamespace env = SetupUserNamespace { env with setgroupsW := none }) ∧
     (∀ e, env.setgroupsW = some e → e ≠ ENOENT →
      (SetupUserNamespace env).exitc = some 255 ∧ (SetupUserNamespace env).out ≠ [])) ∧
    ((∀ e, env.uidMapW = some e →
      (env.setgroupsW = none ∨ env.setgroupsW = some ENOENT) →
      (SetupUserNamespace env).exitc = some 1 ∧ (SetupUserNamespace env).out ≠ []) ∧
     (∀ e, env.gidMapW = some e → env.uidMapW = none →
      (env.setgroupsW = none ∨ env.setgroupsW = some ENOENT) →
      (SetupUserNamespace env).exitc = some 1 ∧ (SetupUserNamespace env).out ≠ []) ∧
     (∀ e, env.setresuidW = some e → env.uidMapW = none → env.gidMapW = none →
      (env.setgroupsW = none ∨ env.setgroupsW = some ENOENT) →
      (SetupUserNamespace env).exitc = some 1 ∧ (SetupUserNamespace env).out ≠ []) ∧
     (∀ e, env.setresgidW = some e → env.uidMapW = none → env.gidMapW = none →
      env.setresuidW = none →
      (env.setgroupsW = none ∨ env.setgroupsW = some ENOENT) →
      (SetupUserNamespace env).exitc = some 1 ∧ (SetupUserNamespace env).out ≠ [])) ∧
    (∀ argv d args c, ParseCommandLine argv = Except.ok (d, args) →
      env.unshareW = none → (SetupUserNamespace env).exitc = some c →
      (main env argv).outcome = Outcome.exited c) := by
  refine ⟨⟨?_, ?_⟩, ⟨?_, ?_, ?_, ?_⟩, ?_⟩
  · intro hsg
    simp [SetupUserNamespace, hsg, WriteFile, errnoVal, ENOENT]
  · intro e hsg he
    have he2 : ¬ e = 2 := he
    simp [SetupUserNamespace, hsg, WriteFile, errnoVal, ENOENT, he2]
  · intro e hsg hu
    rcases hu with hu | hu <;>
      simp [SetupUserNamespace, hsg, hu, WriteFile, errnoVal, ENOENT]
  · intro e hg hu hsg
    rcases hsg with hsg | hsg <;>
      simp [SetupUserNamespace, hsg, hu, hg, WriteFile, errnoVal, ENOENT]
  · intro e hru hu hg hsg
    rcases hsg with hsg | hsg <;>
      simp [SetupUserNamespace, hsg, hu, hg, hru, WriteFile, errnoVal, ENOENT, cRet]
  · intro e hrg hu hg hru hsg
    rcases hsg with hsg | hsg <;>
      simp [SetupUserNamespace, hsg, hu, hg, hru, hrg, WriteFile, errnoVal, ENOENT, cRet]
  · intro argv d args c hp hun hex
    simp [main, hp, cRet, hun, hex]

/-- Claim C4 witness: with the setgroups control file absent,
SetupUserNamespace behaves exactly as when the write succeeds. -/
theorem claim_c4_witness :
    SetupUserNamespace { envOK with setgroupsW := some ENOENT }
      = SetupUserNamespace { { envOK with setgroupsW := some ENOENT } with setgroupsW := none } :=
  (claim_c4_identity_remapper_fatality { envOK with setgroupsW := some ENOENT }).1.1 rfl

/-- Claim C6: in every successful setup the program attempts exactly three
pseudo-file writes, in this order: "deny" to /proc/self/setgroups, then
"0 uid 1 newline" to /proc/self/uid_map, then "0 gid 1 newline" to
/proc/self/gid_map — one mapping entry per id type, outer id to inner 0. -/
theorem claim_c6_three_pseudo_file_writes (env : Env) (argv : List String) (d : Bool)
    (args : List String)
    (hp : ParseCommandLine argv = Except.ok (d, args))
    (hun : env.unshareW = none)
    (hsg : env.setgroupsW = none ∨ env.setgroupsW = some ENOENT)
    (h1 : env.uidMapW = none) (h2 : env.gidMapW = none)
    (h3 : env.setresuidW = none) (h4 : env.setresgidW = none) :
    ((main env argv).events.filter isFileWrite)
      = [Event.fileWrite "/proc/self/setgroups" "deny",
         Event.fileWrite "/proc/self/uid_map" ("0 " ++ toString env.uid ++ " 1\n"),
         Event.fileWrite "/proc/self/gid_map" ("0 " ++ toString env.gid ++ " 1\n")] := by
  have hsu := sun_success env hsg h1 h2 h3 h4
  simp [main, hp, cRet, hun, hsu, spawn_events, isFileWrite]

/-- Claim C6 witness: with uid = gid = 1000 and all calls succeeding, the
pseudo-file writes are exactly the three claimed ones. -/
theorem claim_c6_witness :
    ((main envOK argvLs).events.filter isFileWrite)
      = [Event.fileWrite "/proc/self/setgroups" "deny",
         Event.fileWrite "/proc/self/uid_map" ("0 " ++ toString envOK.uid ++ " 1\n"),
         Event.fileWrite "/proc/self/gid_map" ("0 " ++ toString envOK.gid ++ " 1\n")] :=
  claim_c6_three_pseudo_file_writes envOK argvLs false ["ls"] (by decide) rfl (Or.inl rfl)
    rfl rfl rfl rfl

/-- Claim C7: every unshare event requests the user, mount and network
namespaces together in one call; at most one unshare request is ever
issued; and when that single request fails the run ends immediately with
exit status 1 after printing the OS error, with no further events. -/
theorem claim_c7_atomic_namespace_creation (env : Env) (argv : List String) :
    (∀ a b c, Event.unshareCall a b c ∈ (main env argv).events →
      a = true ∧ b = true ∧ c = true) ∧
    ((main env argv).events.countP isUnshare ≤ 1) ∧
    (∀ d args e, ParseCommandLine argv = Except.ok (d, args) → env.unshareW = some e →
      main env argv
        = { events := [Event.unshareCall true true true]
            output := [perrorMsg "unshare(CLONE_NEWNS | CLONE_NEWUSER | CLONE_NEWNET)" e]
            outcome := Outcome.exited 1 }) := by
  refine ⟨?_, ?_, ?_⟩
  · intro a b c hmem
    rcases main_events_cases env argv with h | ⟨_, h⟩ | ⟨_, h | ⟨s, h⟩⟩ <;> rw [h] at hmem
    · simp at hmem
    · simp at hmem
      exact hmem
    · rcases List.mem_cons.mp hmem with h1 | h1
      · injection h1 with e1 e2 e3
        exact ⟨e1, e2, e3⟩
      · exact absurd h1 ((sun_no_unshare env).1 a b c)
    · rcases List.mem_cons.mp hmem with h1 | h1
      · injection h1 with e1 e2 e3
        exact ⟨e1, e2, e3⟩
      · rcases List.mem_append.mp h1 with h2 | h2
        · exact absurd h2 ((sun_no_unshare env).1 a b c)
        · simp at h2
  · rcases main_events_cases env argv with h | ⟨_, h⟩ | ⟨_, h | ⟨s, h⟩⟩ <;> rw [h] <;>
      simp [isUnshare, List.countP_cons, List.countP_append, (sun_no_unshare env).2]
  · intro d args e hp hu
    simp [main, hp, cRet, hu, errnoVal]

/-- Claim C7 witness: when unshare fails with EPERM the run is exactly the
single unshare attempt, the perror line and exit status 1. -/
theorem claim_c7_witness :
    main envUnshareFail argvLs
      = { events := [Event.unshareCall true true true]
          output := [perrorMsg "unshare(CLONE_NEWNS | CLONE_NEWUSER | CLONE_NEWNET)" 1]
          outcome := Outcome.exited 1 } :=
  (claim_c7_atomic_namespace_creation envUnshareFail argvLs).2.2 false ["ls"] 1 (by decide) rfl

/-- Claim C3: the UID-map or GID-map pseudo-file write is only ever
attempted in runs where the namespace-creation request succeeded, and the
credential-elevation calls are only ever attempted in runs where both
mapping writes succeeded (and setresgid only after setresuid succeeded):
a failure at any stage halts the process before the next stage's call. -/
theorem claim_c3_stage_ordering (env : Env) (argv : List String) :
    ((∃ s, Event.fileWrite "/proc/self/uid_map" s ∈ (main env argv).events ∨
           Event.fileWrite "/proc/self/gid_map" s ∈ (main env argv).events) →
      env.unshareW = none) ∧
    (Event.setresuidCall ∈ (main env argv).events →
      env.unshareW = none ∧ env.uidMapW = none ∧ env.gidMapW = none) ∧
    (Event.setresgidCall ∈ (main env argv).events →
      env.unshareW = none ∧ env.uidMapW = none ∧ env.gidMapW = none ∧
        env.setresuidW = none) := by
  refine ⟨?_, ?_, ?_⟩
  · rintro ⟨s, hmem | hmem⟩ <;>
    rcases main_events_cases env argv with h | ⟨_, h⟩ | ⟨hun, h | ⟨s2, h⟩⟩ <;>
    rw [h] at hmem <;>
    first
      | exact hun
      | simp at hmem
  · intro hmem
    rcases main_events_cases env argv with h | ⟨_, h⟩ | ⟨hun, h | ⟨s2, h⟩⟩ <;> rw [h] at hmem
    · simp at hmem
    · simp at hmem
    · obtain ⟨h1, h2⟩ := sun_setresuid_mem env (by simpa using hmem)
      exact ⟨hun, h1, h2⟩
    · have hsu : Event.setresuidCall ∈ (SetupUserNamespace env).events := by
        rcases List.mem_cons.mp hmem with h1 | h1
        · exact absurd h1 (by simp)
        · rcases List.mem_append.mp h1 with h2 | h2
          · exact h2
          · simp at h2
      obtain ⟨h1, h2⟩ := sun_setresuid_mem env hsu
      exact ⟨hun, h1, h2⟩
  · intro hmem
    rcases main_events_cases env argv with h | ⟨_, h⟩ | ⟨hun, h | ⟨s2, h⟩⟩ <;> rw [h] at hmem
    · simp at hmem
    · simp at hmem
    · obtain ⟨h1, h2, h3⟩ := sun_setresgid_mem env (by simpa using hmem)
      exact ⟨hun, h1, h2, h3⟩
    · have hsg : Event.setresgidCall ∈ (SetupUserNamespace env).events := by
        rcases List.mem_cons.mp hmem with h1 | h1
        · exact absurd h1 (by simp)
        · rcases List.mem_append.mp h1 with h2 | h2
          · exact h2
          · simp at h2
      obtain ⟨h1, h2, h3⟩ := sun_setresgid_mem env hsg
      exact ⟨hun, h1, h2, h3⟩

/-- Claim C3 witness: in the all-success run the credential elevation was
attempted, so the lemma yields success of every earlier stage. -/
theorem claim_c3_witness :
    envOK.unshareW = none ∧ envOK.uidMapW = none ∧ envOK.gidMapW = none :=
  (claim_c3_stage_ordering envOK argvLs).2.1 (by decide)

/-- Claim C9: SpawnCommand never returns to its caller — its outcome is
always either exit status 1 or a successful exec; whenever execvp returns
at all (OS contract: with -1), the output ends with the perror line of the
checked call, so the debug print and second exit after the CHECK_CALL
never execute; and main never reaches its final return statement. -/
theorem claim_c9_spawn_never_returns (env : Env) (debug : Bool) (args : List String)
    (argv : List String) (h : env.wf) :
    ((SpawnCommand env debug args).outcome = Outcome.exited 1 ∨
     (SpawnCommand env debug args).outcome = Outcome.execed (args.headD "")) ∧
    (∀ r, env.execRet = some r →
      (SpawnCommand env debug args).output
        = (if debug then args.map (fun a => "sandbox.c: arg: " ++ a ++ "\n") else [])
          ++ [perrorMsg "execvp(argv[0], argv)" env.execErrno]) ∧
    (∀ r, (main env argv).outcome ≠ Outcome.returned r) := by
  refine ⟨?_, ?_, ?_⟩
  · rcases h with h | h <;> simp [SpawnCommand, h]
  · intro r hr
    rcases h with h | h
    · rw [h] at hr
      simp at hr
    · rw [h] at hr
      injection hr with hr
      subst hr
      simp [SpawnCommand, h]
  · intro r
    rcases hp : ParseCommandLine argv with ph | ⟨d2, args2⟩
    · simp [main, hp]
    · by_cases hu : cRet env.unshareW = -1
      · simp [main, hp, hu]
      · cases hse : (SetupUserNamespace env).exitc with
        | some c => simp [main, hp, hu, hse]
        | none =>
          rcases h with h | h <;> simp [main, hp, hu, hse, SpawnCommand, h]

/-- Claim C9 witness: on a successful exec, SpawnCommand ends in the exec,
not a return. -/
theorem claim_c9_witness :
    (SpawnCommand envOK false ["ls"]).outcome = Outcome.exited 1 ∨
    (SpawnCommand envOK false ["ls"]).outcome = Outcome.execed ((["ls"] : List String).headD "") :=
  (claim_c9_spawn_never_returns envOK false ["ls"] argvLs (Or.inl rfl)).1

/-- Claim C1 counterexample: running against a missing binary, the program
exits non-zero but its only diagnostic is the perror line of the checked
execvp call — no printed output names the common causes (missing shared
library, missing dynamic loader, absent binary); those hints exist only as
a source comment.  This refutes the claim that the diagnostic names them. -/
theorem claim_c1_counterexample :
    (main envExecFail ["tool", "--", "/nonexistent"]).outcome = Outcome.exited 1 ∧
    (main envExecFail ["tool", "--", "/nonexistent"]).output
      = ["execvp(argv[0], argv): No such file or directory"] ∧
    strContains "shared library" "execvp(argv[0], argv): No such file or directory" = false ∧
    strContains "dynamic loader" "execvp(argv[0], argv): No such file or directory" = false ∧
    strContains "binary" "execvp(argv[0], argv): No such file or directory" = false := by
  decide

/-- Claim C1 (amended): for every invocation whose exec fails, the program
prints the perror diagnostic of the exec call (naming the failed call and
the OS error) and terminates with exit status 1; the common-cause hints
are not part of the output. -/
theorem claim_c1_exec_failure_diagnostic (env : Env) (argv : List String) (d : Bool)
    (args : List String)
    (hp : ParseCommandLine argv = Except.ok (d, args))
    (hun : env.unshareW = none)
    (hsg : env.setgroupsW = none ∨ env.setgroupsW = some ENOENT)
    (h1 : env.uidMapW = none) (h2 : env.gidMapW = none)
    (h3 : env.setresuidW = none) (h4 : env.setresgidW = none)
    (hx : env.execRet = some (-1)) :
    (main env argv).outcome = Outcome.exited 1 ∧
    perrorMsg "execvp(argv[0], argv)" env.execErrno ∈ (main env argv).output := by
  have hsu := sun_success env hsg h1 h2 h3 h4
  constructor <;> simp [main, hp, cRet, hun, hsu, SpawnCommand, hx]

/-- Claim C1 witness: concrete run with a failing exec, exiting 1 with the
perror diagnostic. -/
theorem claim_c1_witness :
    (main envExecFail ["tool", "-D", "/nonexistent"]).outcome = Outcome.exited 1 ∧
    perrorMsg "execvp(argv[0], argv)" envExecFail.execErrno
      ∈ (main envExecFail ["tool", "-D", "/nonexistent"]).output :=
  claim_c1_exec_failure_diagnostic envExecFail ["tool", "-D", "/nonexistent"] true
    ["/nonexistent"] (by decide) rfl (Or.inl rfl) rfl rfl rfl rfl rfl

/-- Claim C2 counterexample: a namespace-creation (unshare) failure is an
internal error, yet the process exits with status 1, not -1/255 as the
claimed pattern states. -/
theorem claim_c2_counterexample :
    (main envUnshareFail argvLs).outcome = Outcome.exited 1 ∧
    (main envUnshareFail argvLs).outcome ≠ Outcome.exited 255 := by
  decide

/-- Claim C2 (amended): on every failure path the process exits non-zero
with a message on standard error; the status is 1 for usage, exec,
namespace-creation, mapping-write and credential-elevation failures, and
-1/255 arises only for a non-ENOENT failure of the setgroups write. -/
theorem claim_c2_exit_status_pattern (env : Env) (argv : List String) (h : env.wf) (c : Nat)
    (hc : (main env argv).outcome = Outcome.exited c) :
    c ≠ 0 ∧ (main env argv).output ≠ [] ∧ (c = 1 ∨ c = 255) ∧
    (c = 255 → ∃ e, env.setgroupsW = some e ∧ e ≠ ENOENT) := by
  rcases hp : ParseCommandLine argv with ph | ⟨d, args⟩
  · obtain ⟨he, hx, ho⟩ := parse_error_shape argv ph hp
    simp [main, hp, hx] at hc
    subst hc
    refine ⟨by decide, ?_, Or.inl rfl, by intro hh; exact absurd hh (by decide)⟩
    simpa [main, hp] using ho
  · by_cases hu : cRet env.unshareW = -1
    · simp [main, hp, hu] at hc
      subst hc
      refine ⟨by decide, ?_, Or.inl rfl, by intro hh; exact absurd hh (by decide)⟩
      simp [main, hp, hu]
    · rcases sun_cases env with ⟨hx, ho⟩ | ⟨hx, ho, hsge⟩ | ⟨hx, ho⟩
      · rcases h with hw | hw
        · simp [main, hp, hu, hx, SpawnCommand, hw] at hc
        · simp [main, hp, hu, hx, SpawnCommand, hw] at hc
          subst hc
          refine ⟨by decide, ?_, Or.inl rfl, by intro hh; exact absurd hh (by decide)⟩
          simp [main, hp, hu, hx, ho, SpawnCommand, hw]
      · simp [main, hp, hu, hx] at hc
        subst hc
        refine ⟨by decide, ?_, Or.inr rfl, fun _ => hsge⟩
        simp [main, hp, hu, hx]
        exact ho
      · simp [main, hp, hu, hx] at hc
        subst hc
        refine ⟨by decide, ?_, Or.inl rfl, by intro hh; exact absurd hh (by decide)⟩
        simp [main, hp, hu, hx]
        exact ho

/-- Claim C2 witness: the concrete unshare failure exits 1 with a message,
matching the amended pattern. -/
theorem claim_c2_witness :
    (1 : Nat) ≠ 0 ∧ (main envUnshareFail argvLs).output ≠ [] ∧
    ((1 : Nat) = 1 ∨ (1 : Nat) = 255) ∧
    ((1 : Nat) = 255 → ∃ e, envUnshareFail.setgroupsW = some e ∧ e ≠ ENOENT) :=
  claim_c2_exit_status_pattern envUnshareFail argvLs (Or.inl rfl) 1 (by decide)

end NewNetworkNamespace
